import Mathlib

/-!
Shallow embedding of the lcd1602 Go driver (HD44780 character LCD behind an
I2C GPIO-expander backpack).  Bytes are modelled as `Nat` with `% 256` where
the Go `byte` arithmetic can overflow.  All bus traffic (register writes and
timed sleeps) is collected into an explicit trace of events; the underlying
bus transport is an external collaborator, so the possibility of a write
failing is modelled by an oracle interpreted over the trace.
-/

namespace Lcd1602

/-! ### Constants (src/unnamed/part_000 lines 21-51) -/

/-- Command: clear display. -/
def CMD_Clear_Display : Nat := 0x01

/-- Command: return home. -/
def CMD_Return_Home : Nat := 0x02

/-- Command: entry mode set. -/
def CMD_Entry_Mode : Nat := 0x04

/-- Command: display control. -/
def CMD_Display_Control : Nat := 0x08

/-- Command: cursor/display shift. -/
def CMD_Cursor_Display_Shift : Nat := 0x10

/-- Command: function set. -/
def CMD_Function_Set : Nat := 0x20

/-- Command: set DDRAM address. -/
def CMD_DDRAM_Set : Nat := 0x80

/-- Entry-mode option: increment address after write. -/
def OPT_Increment : Nat := 0x02

/-- Entry-mode option: shift display on write. -/
def OPT_Cursor_Shift : Nat := 0x01

/-- Display-control option: display on. -/
def OPT_Enable_Display : Nat := 0x04

/-- Display-control option: cursor visible. -/
def OPT_Enable_Cursor : Nat := 0x02

/-- Display-control option: cursor blink. -/
def OPT_Enable_Blink : Nat := 0x01

/-- Cursor/display-shift option: shift display (not just cursor). -/
def OPT_Display_Shift : Nat := 0x08

/-- Cursor/display-shift option: shift right (0 = left). -/
def OPT_Shift_Right : Nat := 0x04

/-- Function-set option: two display lines. -/
def OPT_2_Lines : Nat := 0x08

/-- Function-set option: 5x10 dot font. -/
def OPT_5x10_Dots : Nat := 0x04

/-- Pin position of the enable signal on the expander byte. -/
def EN : Nat := 2

/-- Pin position of the read/write signal. -/
def WR : Nat := 1

/-- Pin position of the register-select signal. -/
def RS : Nat := 0

/-- Pin position of data line 4. -/
def D4 : Nat := 4

/-- Pin position of data line 5. -/
def D5 : Nat := 5

/-- Pin position of data line 6. -/
def D6 : Nat := 6

/-- Pin position of data line 7. -/
def D7 : Nat := 7

/-- Pin position of the backlight signal. -/
def BACKLIGHT : Nat := 3

/-! ### Options (src/lcd1602_options.go) -/

/-- Construction options.  `I2CAddr` is a Go `uint16`, `Lines` and `Cols`
are Go `uint8`; `CharDelay` is a `time.Duration` in nanoseconds. -/
structure Opts where
  I2CAddr : Nat
  Lines : Nat
  Cols : Nat
  CharDelay : Nat
deriving DecidableEq

/-- Default options (line 21-26 of src/lcd1602_options.go). -/
def DefaultOpts : Opts :=
  { I2CAddr := 0x27, Lines := 2, Cols := 16, CharDelay := 1000000 }

/-- Address resolution `(o *Opts) i2cAddr()` (lines 28-38 of
src/lcd1602_options.go): the Go `switch` is a chain of equality tests; `0`
resolves to the default `0x27`, addresses `0x20`..`0x27` resolve to
themselves, everything else is an error. -/
def i2cAddr (o : Opts) : Except String Nat :=
  if o.I2CAddr = 0 then Except.ok 0x27
  else if o.I2CAddr = 0x20 ∨ o.I2CAddr = 0x21 ∨ o.I2CAddr = 0x22 ∨
      o.I2CAddr = 0x23 ∨ o.I2CAddr = 0x24 ∨ o.I2CAddr = 0x25 ∨
      o.I2CAddr = 0x26 ∨ o.I2CAddr = 0x27 then Except.ok o.I2CAddr
  else Except.error "given address not supported by device"

/-! ### Device state (src/unnamed/part_000 lines 53-63; the `mmr.Dev8`
connection handle is the bus boundary and is not part of the state) -/

/-- Mutable driver state mirroring the Go `Dev` struct fields. -/
structure Dev where
  isSPI : Bool
  displayEnable : Bool
  backlight_state : Bool
  cursor : Bool
  blink : Bool
  displayShift : Bool
  shiftRight : Bool
  opts : Opts
deriving DecidableEq

/-! ### Bus trace -/

/-- Observable bus events: `write b` is `d.c.WriteUint8(0, b)` (a one-byte
write to register 0), `sleep ns` is `time.Sleep` of `ns` nanoseconds. -/
inductive Ev where
  | write (b : Nat)
  | sleep (ns : Nat)
deriving DecidableEq

/-- Modelled from the spec: the Bus Adapter (`mmr.Dev8.WriteUint8`, owned
outside the core) may fail any individual register write with an I/O error.
`bus k = true` means the `k`-th register write of a trace fails.  The first
failing write of a trace, if any, yields the error the spec expects to be
propagated.  Sleeps do not consume a write index. -/
def firstBusError (bus : Nat → Bool) : List Ev → Nat → Option String
  | [], _ => none
  | Ev.sleep _ :: rest, k => firstBusError bus rest k
  | Ev.write _ :: rest, k =>
      if bus k then some "i2c write failed" else firstBusError bus rest (k + 1)

/-! ### Bit packer (src/unnamed/part_000 lines 293-304) -/

/-- `pinInterpret(pin, data, value byte/bool)`: sets (value true) or clears
(value false) bit `pin` of `data`.  Go computes the masks in `byte`
arithmetic, hence the `% 256`. -/
def pinInterpret (pin data : Nat) (value : Bool) : Nat :=
  if value then
    data ||| ((1 <<< pin) % 256)
  else
    data &&& (((1 <<< pin) % 256) ^^^ 0xFF)

/-! ### Nibble transmitter (src/unnamed/part_000 lines 237-290) -/

/-- Backlight re-application at the head of `enable` (lines 279-284): the
output byte always has the backlight bit forced to the current flag. -/
def enableByte (d : Dev) (data : Nat) : Nat :=
  if d.backlight_state then pinInterpret BACKLIGHT data true
  else pinInterpret BACKLIGHT data false

/-- `(d *Dev) enable(data byte)` (lines 278-290): write the byte with enable
clear, wait 40 us, write it with enable set, wait 40 us, write it with
enable clear again.  All three `WriteUint8` results are discarded by the Go
source (expression statements), so `enable` has no error channel. -/
def enable (d : Dev) (data : Nat) : List Ev :=
  let e := enableByte d data
  [Ev.write e, Ev.sleep 40000, Ev.write (pinInterpret EN e true),
   Ev.sleep 40000, Ev.write e]

/-- High-nibble output byte of `(d *Dev) write` (lines 244-256): data lines
D4-D7 from bits 4-7 of `data`, register-select set unless this is a
command. -/
def writeHiByte (data : Nat) (command : Bool) : Nat :=
  let hi_nibble := data >>> 4
  let a := pinInterpret D4 0 (hi_nibble &&& 0x01 == 0x01)
  let a := pinInterpret D5 a ((hi_nibble >>> 1) &&& 0x01 == 0x01)
  let a := pinInterpret D6 a ((hi_nibble >>> 2) &&& 0x01 == 0x01)
  let a := pinInterpret D7 a ((hi_nibble >>> 3) &&& 0x01 == 0x01)
  if !command then pinInterpret RS a true else a

/-- Low-nibble output byte of `(d *Dev) write` (lines 261-273). -/
def writeLoByte (data : Nat) (command : Bool) : Nat :=
  let low_nibble := data &&& 0x0F
  let a := pinInterpret D4 0 (low_nibble &&& 0x01 == 0x01)
  let a := pinInterpret D5 a ((low_nibble >>> 1) &&& 0x01 == 0x01)
  let a := pinInterpret D6 a ((low_nibble >>> 2) &&& 0x01 == 0x01)
  let a := pinInterpret D7 a ((low_nibble >>> 3) &&& 0x01 == 0x01)
  if !command then pinInterpret RS a true else a

/-- `(d *Dev) write(data byte, command bool)` (lines 243-276): two enable
pulses, high nibble first.  No error channel in the Go signature. -/
def write (d : Dev) (data : Nat) (command : Bool) : List Ev :=
  enable d (writeHiByte data command) ++ enable d (writeLoByte data command)

/-- `(d *Dev) command(data byte)` (lines 237-239). -/
def command (d : Dev) (data : Nat) : List Ev :=
  write d data true

/-! ### Display state machine (src/unnamed/part_000 lines 95-98, 184-235) -/

/-- `(d *Dev) SetBacklight(on bool)` (lines 95-98): one raw register write
of a byte with only the backlight bit reflecting `on`, then update the
flag.  The `WriteUint8` result is discarded; no error channel. -/
def SetBacklight (d : Dev) (onb : Bool) : Dev × List Ev :=
  ({ d with backlight_state := onb },
   [Ev.write (pinInterpret BACKLIGHT 0x00 onb)])

/-- The `option` byte assembled by `writeDisplaySwitch` (lines 194-207). -/
def displaySwitchByte (d : Dev) : Nat :=
  let o := CMD_Display_Control
  let o := if d.displayEnable then o ||| OPT_Enable_Display else o
  let o := if d.cursor then o ||| OPT_Enable_Cursor else o
  if d.blink then o ||| OPT_Enable_Blink else o

/-- `(d *Dev) writeDisplaySwitch()` (lines 194-207). -/
def writeDisplaySwitch (d : Dev) : List Ev :=
  command d (displaySwitchByte d)

/-- The `option` byte assembled by `writeEntryMode` (lines 226-235):
`OPT_Increment` unless `shiftRight`, `OPT_Cursor_Shift` if
`displayShift`. -/
def entryModeByte (d : Dev) : Nat :=
  let o := CMD_Entry_Mode
  let o := if !d.shiftRight then o ||| OPT_Increment else o
  if d.displayShift then o ||| OPT_Cursor_Shift else o

/-- `(d *Dev) writeEntryMode()` (lines 226-235). -/
def writeEntryMode (d : Dev) : List Ev :=
  command d (entryModeByte d)

/-- `(d *Dev) SetDisplayShift(value bool)` (lines 184-187). -/
def SetDisplayShift (d : Dev) (value : Bool) : Dev × List Ev :=
  let d' := { d with displayShift := value }
  (d', writeEntryMode d')

/-- `(d *Dev) SetShiftRight(value bool)` (lines 189-192). -/
def SetShiftRight (d : Dev) (value : Bool) : Dev × List Ev :=
  let d' := { d with shiftRight := value }
  (d', writeEntryMode d')

/-- `(d *Dev) Clear()` (lines 100-102). -/
def Clear (d : Dev) : List Ev :=
  command d CMD_Clear_Display

/-- `(d *Dev) Home()` (lines 104-106). -/
def Home (d : Dev) : List Ev :=
  command d CMD_Return_Home

/-! ### Address mapper (src/unnamed/part_000 lines 108-128) -/

/-- `(d *Dev) SetPosition(line, pos byte) error` (lines 108-128).  The Go
`switch line` with cases 1..4 and no `default` is a chain of equality
tests whose fall-through leaves `address` at its zero value; `byte`
additions are taken `% 256`.  Returns the (unchanged) device, the Go error
result, and the bus trace (empty on the error paths, where the function
returns before any write).  The Go error strings interpolate the arguments
with `fmt.Errorf`; the formatted numbers are elided here. -/
def SetPosition (d : Dev) (line pos : Nat) : Dev × Except String Unit × List Ev :=
  if line > d.opts.Lines then
    (d, Except.error "lcd1602: device does not support this many lines", [])
  else if pos > d.opts.Cols then
    (d, Except.error "lcd1602: device does not support this many cols", [])
  else
    let address :=
      if line = 1 then pos % 256
      else if line = 2 then (0x40 + pos) % 256
      else if line = 3 then (0x10 + pos) % 256
      else if line = 4 then (0x50 + pos) % 256
      else 0
    (d, Except.ok (), command d ((CMD_DDRAM_Set + address) % 256))

/-! ### Initialization (src/unnamed/part_000 lines 148-182, 72-85) -/

/-- `makeDev(c conn.Conn, isSPI bool, opts *Opts)` (lines 148-182).  The Go
struct literal does not mention `backlight_state`, which therefore takes
the Go zero value `false`.  Every bus write of the sequence goes through
`enable`/`command`, whose `WriteUint8` results are discarded, and the
function ends with `return d, nil`: the error component is always `ok`. -/
def makeDev (isSPI : Bool) (opts : Opts) : Except String Dev × List Ev :=
  let d : Dev :=
    { isSPI := isSPI, displayEnable := true, backlight_state := false,
      cursor := true, blink := true, displayShift := false,
      shiftRight := false, opts := opts }
  let data := pinInterpret D5 (pinInterpret D4 0 true) true
  let t1 := enable d data ++ [Ev.sleep 200000000] ++ enable d data ++
    [Ev.sleep 100000000] ++ enable d data ++ [Ev.sleep 100000000]
  let data2 := pinInterpret D4 data false
  let t2 := enable d data2 ++ [Ev.sleep 10000000]
  let t3 := command d (CMD_Function_Set ||| OPT_2_Lines)
  let t4 := writeDisplaySwitch d
  let t5 := writeEntryMode d
  let t6 := command d CMD_Clear_Display
  (Except.ok d, t1 ++ t2 ++ t3 ++ t4 ++ t5 ++ t6)

/-- `NewI2C(b i2c.Bus, opts *Opts)` (lines 72-85): resolve the address (an
error there aborts construction before any bus traffic), then build the
device.  The resolved address only parameterizes the bus handle, which is
outside this model; a `nil` `opts` selects `DefaultOpts` in Go and is
modelled by passing `DefaultOpts` explicitly. -/
def NewI2C (opts : Opts) : Except String Dev × List Ev :=
  match i2cAddr opts with
  | Except.error e => (Except.error ("lcd1602: " ++ e), [])
  | Except.ok _ => makeDev false opts

/-! ### Concrete devices used as inputs of witnesses and counterexamples -/

/-- The device produced by a default-options construction (the value of
`(makeDev false DefaultOpts).1`, spelled out). -/
def dev0 : Dev :=
  { isSPI := false, displayEnable := true, backlight_state := false,
    cursor := true, blink := true, displayShift := false,
    shiftRight := false, opts := DefaultOpts }

/-- The default device after the backlight has been switched on. -/
def devBL : Dev :=
  { dev0 with backlight_state := true }

/-! ### Bit-level helper lemmas about the bit packer -/

/-- The byte mask Go computes for a pin below 8 is exactly the pin's power
of two. -/
theorem one_shiftLeft_mod (p : Nat) (hp : p < 8) : (1 <<< p) % 256 = 2 ^ p := by
  rw [Nat.one_shiftLeft, Nat.mod_eq_of_lt]
  exact Nat.lt_of_lt_of_le (Nat.pow_lt_pow_right one_lt_two hp) (by norm_num)

/-- Every bit below 8 of the byte 0xFF is set. -/
theorem testBit_255 (q : Nat) (hq : q < 8) : Nat.testBit 255 q = true := by
  interval_cases q <;> rfl

/-- Bit `p` of `pinInterpret p d v` is `v`. -/
theorem testBit_pinInterpret_self (p d : Nat) (v : Bool) (hp : p < 8) :
    (pinInterpret p d v).testBit p = v := by
  cases v
  · simp [pinInterpret, one_shiftLeft_mod p hp, Nat.testBit_and, Nat.testBit_xor,
      Nat.testBit_two_pow, testBit_255 p hp]
  · simp [pinInterpret, one_shiftLeft_mod p hp, Nat.testBit_or, Nat.testBit_two_pow]

/-- Bits other than `p` (below 8) are untouched by `pinInterpret p`. -/
theorem testBit_pinInterpret_ne (p q d : Nat) (v : Bool) (hp : p < 8) (hq : q < 8)
    (hne : q ≠ p) : (pinInterpret p d v).testBit q = d.testBit q := by
  cases v
  · simp [pinInterpret, one_shiftLeft_mod p hp, Nat.testBit_and, Nat.testBit_xor,
      Nat.testBit_two_pow, testBit_255 q hq, Ne.symm hne]
  · simp [pinInterpret, one_shiftLeft_mod p hp, Nat.testBit_or, Nat.testBit_two_pow,
      Ne.symm hne]

/-- Applying `pinInterpret` twice with the same pin and value is the same
as applying it once. -/
theorem pinInterpret_idem (p d : Nat) (v : Bool) :
    pinInterpret p (pinInterpret p d v) v = pinInterpret p d v := by
  cases v <;> simp only [pinInterpret, if_true, if_false, Bool.false_eq_true]
  · rw [Nat.and_assoc, Nat.and_self]
  · rw [Nat.or_assoc, Nat.or_self]

/-- The bit packer stays inside the byte range. -/
theorem pinInterpret_lt (p d : Nat) (v : Bool) (hp : p < 8) (hd : d < 256) :
    pinInterpret p d v < 256 := by
  cases v
  · exact Nat.lt_of_le_of_lt Nat.and_le_left hd
  · show d ||| (1 <<< p) % 256 < 256
    rw [one_shiftLeft_mod p hp]
    exact Nat.or_lt_two_pow hd (Nat.pow_lt_pow_right one_lt_two hp)

/-- The high-nibble output byte never has the enable bit set: `write` only
drives pins D4-D7 and RS. -/
theorem writeHiByte_testBit_EN (data : Nat) (cmd : Bool) :
    (writeHiByte data cmd).testBit EN = false := by
  cases cmd <;>
    simp (disch := decide) [writeHiByte, testBit_pinInterpret_ne, Nat.zero_testBit]

/-- The low-nibble output byte never has the enable bit set. -/
theorem writeLoByte_testBit_EN (data : Nat) (cmd : Bool) :
    (writeLoByte data cmd).testBit EN = false := by
  cases cmd <;>
    simp (disch := decide) [writeLoByte, testBit_pinInterpret_ne, Nat.zero_testBit]

/-- Re-applying the backlight flag does not disturb the enable bit. -/
theorem enableByte_testBit_EN (d : Dev) (data : Nat) (h : data.testBit EN = false) :
    (enableByte d data).testBit EN = false := by
  unfold enableByte
  split <;>
    rw [testBit_pinInterpret_ne BACKLIGHT EN data _ (by decide) (by decide) (by decide)] <;>
    exact h

/-- When the backlight flag is on, the byte handed to the bus has the
backlight bit set. -/
theorem enableByte_testBit_BL (d : Dev) (data : Nat) (h : d.backlight_state = true) :
    (enableByte d data).testBit BACKLIGHT = true := by
  unfold enableByte
  rw [h, if_pos rfl]
  exact testBit_pinInterpret_self BACKLIGHT data true (by decide)

/-! ### Claim theorems -/

/-- Claim C1, counterexample.  The claim says a failing bus write is
propagated: in particular construction returns an error and no usable
device.  Here every single register write of the initialization sequence
fails (the all-failing bus oracle), the trace does contain failing writes,
and yet `NewI2C` still returns the fully-built device with a nil error:
the Go source discards each `WriteUint8` result and `makeDev` ends in
`return d, nil`. -/
theorem newI2C_ok_despite_failed_bus_write :
    firstBusError (fun _ => true) (NewI2C DefaultOpts).2 0 = some "i2c write failed"
    ∧ (NewI2C DefaultOpts).1 = Except.ok dev0 :=
  ⟨rfl, rfl⟩

/-- Claim C1, amended.  Bus write failures are never propagated: the
writing methods have no error channel, `makeDev` unconditionally returns a
nil error, `NewI2C` fails exactly when address resolution fails, and a
byte transfer always performs its full ten-event nibble sequence (nothing
is aborted), regardless of any bus outcome. -/
theorem busErrors_not_propagated (isSPI : Bool) (o : Opts) :
    ((makeDev isSPI o).1).isOk = true
    ∧ ((NewI2C o).1).isOk = (i2cAddr o).isOk
    ∧ (∀ (d : Dev) (data : Nat) (cmd : Bool), (write d data cmd).length = 10) := by
  refine ⟨rfl, ?_, fun d data cmd => rfl⟩
  cases h : i2cAddr o <;> simp [NewI2C, h, makeDev, Except.isOk, Except.toBool]

/-- Claim C2: for a line in 1..4 within the configured line count and a
column within the configured column count, `SetPosition` succeeds, leaves
the device unchanged, and its whole bus traffic is the single command byte
`0x80 + base[line] + col` (in the Go `byte` arithmetic, i.e. mod 256),
with base table 1 -> 0x00, 2 -> 0x40, 3 -> 0x10, 4 -> 0x50. -/
theorem setPosition_ddram_address (d : Dev) (line pos base : Nat)
    (hbase : (line = 1 ∧ base = 0x00) ∨ (line = 2 ∧ base = 0x40) ∨
      (line = 3 ∧ base = 0x10) ∨ (line = 4 ∧ base = 0x50))
    (hline : line ≤ d.opts.Lines) (hpos : pos ≤ d.opts.Cols) :
    SetPosition d line pos =
      (d, Except.ok (), command d ((CMD_DDRAM_Set + base + pos) % 256)) := by
  rcases hbase with ⟨h1, h2⟩ | ⟨h1, h2⟩ | ⟨h1, h2⟩ | ⟨h1, h2⟩ <;> subst h1 <;> subst h2 <;>
    simp only [SetPosition, Nat.not_lt.mpr hline, Nat.not_lt.mpr hpos, if_false] <;>
    norm_num <;> congr 1 <;> simp [CMD_DDRAM_Set] <;> omega

/-- Claim C2, witness: on the default 2x16 device, line 2 column 5 yields
the single command byte 0xC5. -/
theorem setPosition_ddram_address_witness :
    SetPosition dev0 2 5 =
      (dev0, Except.ok (), command dev0 ((CMD_DDRAM_Set + 0x40 + 5) % 256)) :=
  setPosition_ddram_address dev0 2 5 0x40 (Or.inr (Or.inl ⟨rfl, rfl⟩))
    (by decide) (by decide)

/-- Claim C3: `SetPosition` fails exactly when the line exceeds the
configured line count or the column exceeds the configured column count,
and on failure no bus write is issued (empty trace) and the device state
is returned unchanged. -/
theorem setPosition_out_of_range (d : Dev) (line pos : Nat) :
    (line > d.opts.Lines → SetPosition d line pos =
      (d, Except.error "lcd1602: device does not support this many lines", []))
    ∧ (line ≤ d.opts.Lines → pos > d.opts.Cols → SetPosition d line pos =
      (d, Except.error "lcd1602: device does not support this many cols", []))
    ∧ ((SetPosition d line pos).2.1 = Except.ok () ↔
        ¬(line > d.opts.Lines ∨ pos > d.opts.Cols)) := by
  refine ⟨?_, ?_, ?_⟩
  · intro h; simp [SetPosition, h]
  · intro h1 h2; simp [SetPosition, Nat.not_lt.mpr h1, h2]
  · unfold SetPosition; split_ifs with h1 h2 <;> simp <;> omega

/-- Claim C3, witness: line 5 on the default two-line device fails with no
bus write and an unchanged device. -/
theorem setPosition_out_of_range_witness :
    SetPosition dev0 5 0 =
      (dev0, Except.error "lcd1602: device does not support this many lines", []) :=
  (setPosition_out_of_range dev0 5 0).1 (by decide)

/-- Claim C4, counterexample.  After `SetShiftRight(true)` from the initial
state the emitted entry-mode command byte is 0x04, whose
`OPT_Cursor_Shift` bit is clear, contradicting the claim that it is set:
in the source that bit tracks `displayShift`, which is still false. -/
theorem setShiftRight_entry_mode_counterexample :
    (SetShiftRight dev0 true).2 = command ((SetShiftRight dev0 true).1) 0x04
    ∧ 0x04 &&& OPT_Cursor_Shift = 0 :=
  ⟨rfl, rfl⟩

/-- Claim C4, amended: after `SetShiftRight(true)` from any state with
display-shift-on-write false, the emitted entry-mode command byte is the
bare `CMD_Entry_Mode`, with the `OPT_Increment` bit clear (as claimed) and
the `OPT_Cursor_Shift` bit also clear (it is set only when
display-shift-on-write is true). -/
theorem setShiftRight_entry_mode_amended (d : Dev) (h : d.displayShift = false) :
    (SetShiftRight d true).2 = command ((SetShiftRight d true).1) CMD_Entry_Mode
    ∧ CMD_Entry_Mode &&& OPT_Increment = 0
    ∧ CMD_Entry_Mode &&& OPT_Cursor_Shift = 0 := by
  refine ⟨?_, by decide, by decide⟩
  simp [SetShiftRight, writeEntryMode, entryModeByte, h]

/-- Claim C4, witness of the amended statement at the initial state. -/
theorem setShiftRight_entry_mode_amended_witness :
    (SetShiftRight dev0 true).2 = command ((SetShiftRight dev0 true).1) CMD_Entry_Mode
    ∧ CMD_Entry_Mode &&& OPT_Increment = 0
    ∧ CMD_Entry_Mode &&& OPT_Cursor_Shift = 0 :=
  setShiftRight_entry_mode_amended dev0 rfl

/-- Claim C5, counterexample.  A successful default construction yields a
device whose backlight flag is false, contradicting the claimed
backlight-on true: the Go struct literal in makeDev never mentions
`backlight_state`, which keeps its zero value, and nothing in the
initialization sequence sets it. -/
theorem makeDev_backlight_false_counterexample :
    (makeDev false DefaultOpts).1 = Except.ok dev0
    ∧ dev0.backlight_state = false :=
  ⟨rfl, rfl⟩

/-- Claim C5, amended: after construction the state is display-enabled
true, cursor true, blink true, display-shift-on-write false, shift-right
false, and backlight-on FALSE (the Go zero value). -/
theorem makeDev_initial_state (isSPI : Bool) (o : Opts) :
    (makeDev isSPI o).1 = Except.ok
      { isSPI := isSPI, displayEnable := true, backlight_state := false,
        cursor := true, blink := true, displayShift := false,
        shiftRight := false, opts := o } :=
  rfl

/-- Claim C6: every byte sent through the nibble path produces exactly two
enable pulses, high nibble first, each pulse being three writes of the
same output byte - enable clear, enable set (all other bits unchanged),
enable clear again - with a 40 microsecond (40000 ns) sleep after each of
the first two writes. -/
theorem write_two_enable_pulses (d : Dev) (data : Nat) (cmd : Bool)
    (_hd : data < 256) :
    ∃ x y,
      write d data cmd =
        [Ev.write x, Ev.sleep 40000, Ev.write (pinInterpret EN x true),
         Ev.sleep 40000, Ev.write x, Ev.write y, Ev.sleep 40000,
         Ev.write (pinInterpret EN y true), Ev.sleep 40000, Ev.write y]
      ∧ x.testBit EN = false ∧ (pinInterpret EN x true).testBit EN = true
      ∧ y.testBit EN = false ∧ (pinInterpret EN y true).testBit EN = true
      ∧ (∀ q, q < 8 → q ≠ EN → (pinInterpret EN x true).testBit q = x.testBit q)
      ∧ (∀ q, q < 8 → q ≠ EN → (pinInterpret EN y true).testBit q = y.testBit q) := by
  refine ⟨enableByte d (writeHiByte data cmd), enableByte d (writeLoByte data cmd),
    rfl, ?_, ?_, ?_, ?_, ?_, ?_⟩
  · exact enableByte_testBit_EN d _ (writeHiByte_testBit_EN data cmd)
  · exact testBit_pinInterpret_self EN _ true (by decide)
  · exact enableByte_testBit_EN d _ (writeLoByte_testBit_EN data cmd)
  · exact testBit_pinInterpret_self EN _ true (by decide)
  · intro q hq hne; exact testBit_pinInterpret_ne EN q _ true (by decide) hq hne
  · intro q hq hne; exact testBit_pinInterpret_ne EN q _ true (by decide) hq hne

/-- Claim C6, witness at the character byte 0x41 in data mode. -/
theorem write_two_enable_pulses_witness :
    ∃ x y,
      write dev0 0x41 false =
        [Ev.write x, Ev.sleep 40000, Ev.write (pinInterpret EN x true),
         Ev.sleep 40000, Ev.write x, Ev.write y, Ev.sleep 40000,
         Ev.write (pinInterpret EN y true), Ev.sleep 40000, Ev.write y]
      ∧ x.testBit EN = false ∧ (pinInterpret EN x true).testBit EN = true
      ∧ y.testBit EN = false ∧ (pinInterpret EN y true).testBit EN = true
      ∧ (∀ q, q < 8 → q ≠ EN → (pinInterpret EN x true).testBit q = x.testBit q)
      ∧ (∀ q, q < 8 → q ≠ EN → (pinInterpret EN y true).testBit q = y.testBit q) :=
  write_two_enable_pulses dev0 0x41 false (by decide)

/-- Claim C7: while the backlight flag is true, every byte written on the
bus by the nibble-transmission path has the backlight bit set; moreover no
operation other than `SetBacklight` changes the flag, and `SetBacklight`
sets it to its argument. -/
theorem backlight_reproduced :
    (∀ (d : Dev) (data : Nat) (cmd : Bool) (b : Nat),
        d.backlight_state = true → Ev.write b ∈ write d data cmd →
        b.testBit BACKLIGHT = true)
    ∧ (∀ (d : Dev) (v : Bool),
        ((SetDisplayShift d v).1).backlight_state = d.backlight_state
        ∧ ((SetShiftRight d v).1).backlight_state = d.backlight_state)
    ∧ (∀ (d : Dev) (line pos : Nat),
        ((SetPosition d line pos).1).backlight_state = d.backlight_state)
    ∧ (∀ (d : Dev) (v : Bool), ((SetBacklight d v).1).backlight_state = v) := by
  refine ⟨?_, fun d v => ⟨rfl, rfl⟩, ?_, fun d v => rfl⟩
  · intro d data cmd b hbl hmem
    have hpulse : ∀ z,
        (pinInterpret EN (enableByte d z) true).testBit BACKLIGHT = true := by
      intro z
      rw [testBit_pinInterpret_ne EN BACKLIGHT _ true (by decide) (by decide) (by decide)]
      exact enableByte_testBit_BL d z hbl
    simp only [write, enable, List.mem_append, List.mem_cons, List.not_mem_nil,
      or_false] at hmem
    rcases hmem with ((h|h|h|h|h)|(h|h|h|h|h)) <;>
      first
        | (cases h; exact enableByte_testBit_BL d _ hbl)
        | (cases h; exact hpulse _)
        | (exact absurd h (by simp))
  · intro d line pos
    unfold SetPosition; split_ifs <;> rfl

/-- Claim C7, witness: the first byte emitted for the character 0x41 on a
backlit device is 0x49, whose backlight bit is set. -/
theorem backlight_reproduced_witness :
    Nat.testBit 0x49 BACKLIGHT = true :=
  backlight_reproduced.1 devBL 0x41 false 0x49 rfl (by decide)

/-- Claim C8: for every pin position below 8, every input byte and both
boolean values, the bit packer sets bit P to v, leaves the other seven
bits of the byte unchanged, stays within the byte range, and is
idempotent. -/
theorem pinInterpret_exact_bit (p : Nat) (hp : p < 8) (b : Nat) (hb : b < 256)
    (v : Bool) :
    ((pinInterpret p b v).testBit p = v)
    ∧ (∀ q, q < 8 → q ≠ p → (pinInterpret p b v).testBit q = b.testBit q)
    ∧ pinInterpret p b v < 256
    ∧ pinInterpret p (pinInterpret p b v) v = pinInterpret p b v :=
  ⟨testBit_pinInterpret_self p b v hp,
   fun q hq hne => testBit_pinInterpret_ne p q b v hp hq hne,
   pinInterpret_lt p b v hp hb,
   pinInterpret_idem p b v⟩

/-- Claim C8, witness at pin 3 (backlight), byte 0x41, value true. -/
theorem pinInterpret_exact_bit_witness :
    ((pinInterpret 3 0x41 true).testBit 3 = true)
    ∧ (∀ q, q < 8 → q ≠ 3 → (pinInterpret 3 0x41 true).testBit q = Nat.testBit 0x41 q)
    ∧ pinInterpret 3 0x41 true < 256
    ∧ pinInterpret 3 (pinInterpret 3 0x41 true) true = pinInterpret 3 0x41 true :=
  pinInterpret_exact_bit 3 (by decide) 0x41 (by decide) true

/-- Claim C9: address resolution succeeds exactly for 0 (resolving to the
default 0x27) and for 0x20..0x27 (resolving to themselves); any other
address yields the invalid-address error and makes construction fail. -/
theorem i2cAddr_resolution (o : Opts) :
    (o.I2CAddr = 0 → i2cAddr o = Except.ok 0x27)
    ∧ (0x20 ≤ o.I2CAddr → o.I2CAddr ≤ 0x27 → i2cAddr o = Except.ok o.I2CAddr)
    ∧ ((o.I2CAddr = 0 ∨ (0x20 ≤ o.I2CAddr ∧ o.I2CAddr ≤ 0x27)) →
        ((NewI2C o).1).isOk = true)
    ∧ ((o.I2CAddr ≠ 0 ∧ ¬(0x20 ≤ o.I2CAddr ∧ o.I2CAddr ≤ 0x27)) →
        i2cAddr o = Except.error "given address not supported by device"
        ∧ ((NewI2C o).1).isOk = false) := by
  have hok : ∀ a, i2cAddr o = Except.ok a → ((NewI2C o).1).isOk = true := by
    intro a h; simp [NewI2C, h, makeDev, Except.isOk, Except.toBool]
  have herr : ∀ e, i2cAddr o = Except.error e → ((NewI2C o).1).isOk = false := by
    intro e h; simp [NewI2C, h, Except.isOk, Except.toBool]
  refine ⟨?_, ?_, ?_, ?_⟩
  · intro h; simp [i2cAddr, h]
  · intro h1 h2; unfold i2cAddr; split_ifs with g1 g2 <;> first | rfl | omega
  · rintro (h | ⟨h1, h2⟩)
    · exact hok 0x27 (by simp [i2cAddr, h])
    · refine hok o.I2CAddr ?_
      unfold i2cAddr; split_ifs with g1 g2 <;> first | rfl | omega
  · rintro ⟨h1, h2⟩
    have he : i2cAddr o = Except.error "given address not supported by device" := by
      unfold i2cAddr; split_ifs with g1 g2 <;> first | rfl | omega
    exact ⟨he, herr _ he⟩

/-- Claim C9, witness: address 0x28 fails resolution and construction. -/
theorem i2cAddr_resolution_witness :
    i2cAddr { I2CAddr := 0x28, Lines := 2, Cols := 16, CharDelay := 1000000 }
      = Except.error "given address not supported by device"
    ∧ ((NewI2C { I2CAddr := 0x28, Lines := 2, Cols := 16, CharDelay := 1000000 }).1).isOk
      = false :=
  (i2cAddr_resolution
    { I2CAddr := 0x28, Lines := 2, Cols := 16, CharDelay := 1000000 }).2.2.2
    ⟨by decide, by decide⟩

/-- Claim C10: a line value outside 1..4 that passes the bounds checks
(such as line 0) falls through the Go switch, leaving the DDRAM address at
its zero value: the call succeeds and issues the bare set-DDRAM-address
command 0x80, ignoring the column. -/
theorem setPosition_unknown_line_zero (d : Dev) (line pos : Nat)
    (h1 : line ≤ d.opts.Lines) (h2 : pos ≤ d.opts.Cols) (h3 : line ≠ 1)
    (h4 : line ≠ 2) (h5 : line ≠ 3) (h6 : line ≠ 4) :
    SetPosition d line pos = (d, Except.ok (), command d CMD_DDRAM_Set) := by
  simp only [SetPosition, Nat.not_lt.mpr h1, Nat.not_lt.mpr h2, if_false,
    h3, h4, h5, h6]
  norm_num [CMD_DDRAM_Set]

/-- Claim C10, witness: line 0, column 7 on the default device. -/
theorem setPosition_unknown_line_zero_witness :
    SetPosition dev0 0 7 = (dev0, Except.ok (), command dev0 CMD_DDRAM_Set) :=
  setPosition_unknown_line_zero dev0 0 7 (by decide) (by decide)
    (by decide) (by decide) (by decide) (by decide)

end Lcd1602
